import Mathlib

/-!
Verification development for the kernel version registry and retention engine
of `build_kernel.py` (class `VersionInfo` and class `KernelUpdater`).

The Python source is shallowly embedded: filenames and paths are `String`s,
Python `list`s are `List`s, fallible Python operations (`int()` conversion,
`list.pop()` on a possibly-empty list, comparison of records whose fields do
not parse) are `Option`/`Except`, and the two effectful routines
(`VersionInfo.remove`, `KernelUpdater.__clean_up`) are modelled as pure
functions returning the trace of attempted `rm -r` targets together with an
abort flag (an uncaught `CalledProcessError` in the source).
-/

/-- Model of Python `str.split(sep)` for a single-character separator, on the
character list: `"".split("-") == [""]`, `"a--b".split("-") == ["a","","b"]`. -/
def splitOnChar (sep : Char) : List Char → List (List Char)
  | [] => [[]]
  | c :: cs =>
    let rest := splitOnChar sep cs
    if c = sep then [] :: rest
    else
      match rest with
      | piece :: more => (c :: piece) :: more
      | [] => [[c]]

/-- Python `s.split(sep)` on strings (single-character separator, as used by
`build_kernel.py` for `"-"` and `"."`). -/
def pySplit (sep : Char) (s : String) : List String :=
  (splitOnChar sep s.data).map String.mk

/-- Python substring containment `needle in hay` on character lists. -/
def listContainsSub (needle : List Char) : List Char → Bool
  | [] => needle.isPrefixOf ([] : List Char)
  | c :: t => needle.isPrefixOf (c :: t) || listContainsSub needle t

/-- Python `needle in hay` for strings. -/
def pyContains (needle hay : String) : Bool :=
  listContainsSub needle.data hay.data

/-- Python `s.startswith(pre)`; also used to model the shell globs
`"System.map*"` and `"config*"` of `__find_installed_kernels`. -/
def pyStartsWith (s pre : String) : Bool :=
  pre.data.isPrefixOf s.data

/-- Python `s.endswith(suf)`. -/
def pyEndsWith (s suf : String) : Bool :=
  suf.data.isSuffixOf s.data

/-- Python `s.lstrip('r')`: drop every leading `'r'`
(`__find_installed_kernels` applies it to the release-candidate field). -/
def pyLstripR (s : String) : String :=
  String.mk (s.data.dropWhile (fun c => c = 'r'))

/-- Accumulator for `digitsToNat`; fails on the first non-digit character. -/
def digitsToNatAux : List Char → Nat → Option Nat
  | [], acc => some acc
  | c :: cs, acc =>
    if c.isDigit then digitsToNatAux cs (acc * 10 + (c.toNat - 48)) else none

/-- Value of a non-empty all-digit character list, else `none`. -/
def digitsToNat : List Char → Option Nat
  | [] => none
  | c :: cs => digitsToNatAux (c :: cs) 0

/-- Model of Python `int(s)` on the strings produced by filename splitting:
an optional sign followed by decimal digits; `none` models the `ValueError`
raised on anything else.  (Python `int` additionally tolerates surrounding
whitespace and underscore digit separators; the delimiter-separated filename
fields in scope contain neither.) -/
def pyParseInt (s : String) : Option Int :=
  match s.data with
  | '-' :: rest => (digitsToNat rest).map (fun n => -(n : Int))
  | '+' :: rest => (digitsToNat rest).map (fun n => (n : Int))
  | l => (digitsToNat l).map (fun n => (n : Int))

/-- The `release_candidate_num` attribute is dynamically typed in the source:
the constructor default is the Python `int` `0`, while
`__find_installed_kernels` stores the string produced by
`str(version_triple[3]).lstrip('r')`. -/
inductive PyVal where
  | int (n : Int)
  | str (s : String)
deriving DecidableEq

/-- Python `int(x)` on a `PyVal`: the identity on ints, string parsing
(possibly a `ValueError`, i.e. `none`) on strings.  Used by `as_tuple`,
`remove` and `__str__`. -/
def PyVal.toIntOpt : PyVal → Option Int
  | .int n => some n
  | .str s => pyParseInt s

/-- Python `str(x)` / f-string interpolation of a `PyVal`. -/
def PyVal.pyStr : PyVal → String
  | .int n => toString n
  | .str s => s

/-- Model of Python `pathlib.Path(name).suffix == ".old"` for the flat file
names returned by the source's globs: the last dot must start the final
extension `".old"`, and a bare (hidden-file) `".old"` has no suffix. -/
def isOldName (s : String) : Bool :=
  pyEndsWith s ".old" && decide (4 < s.length)

/-- Shallow embedding of class `VersionInfo` (container for one installed
kernel version).  `version_triple` is kept as the raw string extracted from
the image filename, exactly as in the source; `kernel_modules_path` and
`kernel_source_path` are the private path roots passed to the constructor. -/
structure VersionInfo where
  version_triple : String
  vmlinuz : String
  system_map : String
  config : String
  is_old : Bool
  release_candidate_num : PyVal
  kernel_modules_path : String
  kernel_source_path : String
deriving DecidableEq

/-- `VersionInfo.as_tuple`: split `version_triple` on `"."`, convert the
first three fields and `release_candidate_num` with `int()`, and append the
old-adjustment (`-1` when `.old`, else `0`).  `none` models the exception
Python raises when a field does not convert or the split has fewer than
three fields (`IndexError`). -/
def VersionInfo.as_tuple (v : VersionInfo) : Option (Int × Int × Int × Int × Int) :=
  match pySplit '.' v.version_triple with
  | major :: minor :: patch :: _ =>
    match pyParseInt major, pyParseInt minor, pyParseInt patch,
          v.release_candidate_num.toIntOpt with
    | some a, some b, some c, some rc =>
      some (a, b, c, rc, if v.is_old then -1 else 0)
    | _, _, _, _ => none
  | _ => none

/-- Lexicographic `<` on 5-tuples of ints, i.e. Python tuple comparison as
used by `VersionInfo.__lt__`/`__gt__`. -/
def tup5Lt : (Int × Int × Int × Int × Int) → (Int × Int × Int × Int × Int) → Bool
  | (a1, a2, a3, a4, a5), (b1, b2, b3, b4, b5) =>
    if a1 ≠ b1 then decide (a1 < b1)
    else if a2 ≠ b2 then decide (a2 < b2)
    else if a3 ≠ b3 then decide (a3 < b3)
    else if a4 ≠ b4 then decide (a4 < b4)
    else decide (a5 < b5)

/-- `VersionInfo.__gt__`: `self.as_tuple() > other.as_tuple()`; `none` models
the exception when either tuple conversion fails. -/
def VersionInfo.gt (a b : VersionInfo) : Option Bool :=
  match a.as_tuple, b.as_tuple with
  | some ta, some tb => some (tup5Lt tb ta)
  | _, _ => none

/-- `VersionInfo.__lt__`: `self.as_tuple() < other.as_tuple()`. -/
def VersionInfo.lt (a b : VersionInfo) : Option Bool :=
  match a.as_tuple, b.as_tuple with
  | some ta, some tb => some (tup5Lt ta tb)
  | _, _ => none

/-- `VersionInfo.__eq__`: `self.as_tuple() == other.as_tuple()`. -/
def VersionInfo.beq (a b : VersionInfo) : Option Bool :=
  match a.as_tuple, b.as_tuple with
  | some ta, some tb => some (decide (ta = tb))
  | _, _ => none

/-- Comparator realising `sorted(kernels, reverse=True)`: `a` stays before
`b` unless `a < b`.  A stable sort with this comparator yields exactly
Python's stable descending order for records whose `as_tuple` succeeds;
the exception Python raises when `sorted` compares a record whose fields
do not parse is modelled separately by the `sortRaises` guard in
`find_installed_kernels`, so `sortKernels` is only reached on record lists
it orders faithfully (a list with a non-converting record is sorted only
when it has a single element, where no comparison happens). -/
def kernelBefore (a b : VersionInfo) : Bool :=
  ! (VersionInfo.lt a b == some true)

/-- Stable insertion of a record into an already-sorted (newest-first) list. -/
def insertKernel (x : VersionInfo) : List VersionInfo → List VersionInfo
  | [] => [x]
  | y :: ys => if kernelBefore x y then x :: y :: ys else y :: insertKernel x ys

/-- Stable descending sort, the model of
`sorted(self.__current_kernels, reverse=True)`. -/
def sortKernels : List VersionInfo → List VersionInfo
  | [] => []
  | x :: xs => insertKernel x (sortKernels xs)

/-- Sequential execution of `rm -r` commands with `check=True` and no
handler: `fails t` says the command for target `t` exits non-zero.  Returns
the targets attempted in order (the failing one was attempted — the command
ran and failed) and whether a `CalledProcessError` escaped, which stops the
sequence at the first failure. -/
def runSeq (fails : String → Bool) : List String → List String × Bool
  | [] => ([], false)
  | t :: ts =>
    if fails t then ([t], true)
    else
      let r := runSeq fails ts
      (t :: r.1, r.2)

/-- The source-directory string built by `VersionInfo.remove`:
`f"{kernel_source_path}-{version_triple}-gentoo"`, plus
`f"-r{release_candidate_num}"` when `int(release_candidate_num) > 0`
(the raw attribute is interpolated, hence `pyStr`). -/
def VersionInfo.sourceDirFull (v : VersionInfo) (n : Int) : String :=
  v.kernel_source_path ++ "-" ++ v.version_triple ++ "-gentoo" ++
    (if 0 < n then "-r" ++ v.release_candidate_num.pyStr else "")

/-- The module-directory string built by `VersionInfo.remove`:
`f"{kernel_modules_path}/{version_triple}-gentoo"`. -/
def VersionInfo.modules_dir (v : VersionInfo) : String :=
  v.kernel_modules_path ++ "/" ++ v.version_triple ++ "-gentoo"

/-- `VersionInfo.remove`: delete the image, the symbol map and the config
(in that order), then the source directory, then — only for a non-`.old`
record — the module directory.  Every deletion is `subprocess.run(..,
check=True)` with no `try`, so the first failure aborts with an uncaught
`CalledProcessError`; the `int()` conversion guarding the `-r` suffix of the
source directory can itself raise (second component `true`, nothing further
attempted).  Paths are identified with their strings (`absolute()` only
prefixes the working directory). -/
def VersionInfo.remove (v : VersionInfo) (fails : String → Bool) : List String × Bool :=
  let r1 := runSeq fails [v.vmlinuz, v.system_map, v.config]
  if r1.2 then r1
  else
    match v.release_candidate_num.toIntOpt with
    | none => (r1.1, true)
    | some n =>
      let src := v.sourceDirFull n
      if fails src then (r1.1 ++ [src], true)
      else if v.is_old then (r1.1 ++ [src], false)
      else (r1.1 ++ [src, v.modules_dir], fails v.modules_dir)

/-- The full deletion plan of a record whose `release_candidate_num`
converts to `n`: image, symbol map, config, source directory, and module
directory except for `.old` records.  (Characterisation proved against
`VersionInfo.remove` below.) -/
def VersionInfo.removeTargets (v : VersionInfo) (n : Int) : List String :=
  [v.vmlinuz, v.system_map, v.config, v.sourceDirFull n] ++
    (if v.is_old then [] else [v.modules_dir])

/-- Records deleted by one retention pass, from `KernelUpdater.__clean_up`:
given the newest-first sorted record list and the raw `VersionsToKeep`
configuration string, return early when
`len(current_kernels) <= len(versions_to_keep)` (Python `len` of the
configuration *string*), otherwise pop `len(current_kernels) - 2` records
from the end of the list (oldest first). -/
def cleanUpSelected (kernels : List VersionInfo) (versions_to_keep : String) :
    List VersionInfo :=
  if kernels.length ≤ versions_to_keep.length then []
  else kernels.reverse.take (kernels.length - 2)

/-- Sequential `remove` of a list of records; an escaped exception from one
record's removal stops all subsequent records. -/
def deleteSeq (fails : String → Bool) : List VersionInfo → List String × Bool
  | [] => ([], false)
  | v :: vs =>
    let r := v.remove fails
    if r.2 then (r.1, true)
    else
      let rest := deleteSeq fails vs
      (r.1 ++ rest.1, rest.2)

/-- Deletion trace of `KernelUpdater.__clean_up` on an already-discovered,
newest-first record list: attempted `rm -r` targets in order, plus the
abort flag. -/
def cleanUpDeletions (kernels : List VersionInfo) (versions_to_keep : String)
    (fails : String → Bool) : List String × Bool :=
  deleteSeq fails (cleanUpSelected kernels versions_to_keep)

/-- Glob `vmlinuz-*-gentoo*` of `__find_installed_kernels`: prefix
`"vmlinuz-"`, then anything, then `"-gentoo"`, then anything. -/
def vmlinuzGlobMatch (s : String) : Bool :=
  pyStartsWith s "vmlinuz-" && listContainsSub "-gentoo".data (s.data.drop 8)

/-- Image files of the install directory (glob `vmlinuz-*-gentoo*`),
in listing order. -/
def vmlinuzFiles (dir : List String) : List String :=
  dir.filter vmlinuzGlobMatch

/-- Symbol-map files of the install directory (glob `System.map*`). -/
def systemMapFiles (dir : List String) : List String :=
  dir.filter (fun s => pyStartsWith s "System.map")

/-- Config files of the install directory (glob `config*`). -/
def configFiles (dir : List String) : List String :=
  dir.filter (fun s => pyStartsWith s "config")

/-- The version token extracted from an image filename:
field 1 of the `"-"` split (`'5.9.2'` from `'vmlinuz-5.9.2-gentoo'`). -/
def versionOf (vmlz : String) : String :=
  (pySplit '-' vmlz).getD 1 ""

/-- The `.old` flag of an image filename (`vmlinuz.suffix == '.old'`). -/
def isOldOf (vmlz : String) : Bool :=
  isOldName vmlz

/-- The sibling filter of `__find_installed_kernels`: files whose name
contains the version token as a substring and whose `.old` suffix agrees
with the image's generation
(`version_triple in str(s) and [not] str(s).endswith(".old")`). -/
def siblingMatches (files : List String) (ver : String) (old : Bool) : List String :=
  files.filter (fun s => pyContains ver s && (pyEndsWith s ".old" == old))

/-- Python `list.pop()`: the last element, `none` on the empty list
(`IndexError`, caught by the bare `except` and turned into
`error_and_exit`). -/
def pyPop {α : Type} : List α → Option α
  | [] => none
  | [x] => some x
  | _ :: x :: xs => pyPop (x :: xs)

/-- The fatal discovery failures of `__find_installed_kernels`: the first
three call `error_and_exit` (process exit code 1); `sortCrash` models the
`ValueError`/`IndexError` escaping the final `sorted` call when some
constructed record's `as_tuple` raises (also process exit code 1, via an
uncaught exception). -/
inductive FindError where
  | badVersionLen (fieldCount : Nat)
  | noSystemMap (version : String) (old : Bool)
  | noConfig (version : String) (old : Bool)
  | sortCrash
deriving DecidableEq

/-- One iteration of the discovery loop of `__find_installed_kernels` for a
single image file: check the `"-"` split has 3 or 4 fields, extract the
release-candidate field (`str(fields[3]).lstrip('r')`) or default `0`,
extract the version token and the `.old` flag, then pick the matching
symbol map and config via the substring filter and `pop()`. -/
def buildRecord (dir : List String) (mp sp vmlz : String) :
    Except FindError VersionInfo :=
  if (pySplit '-' vmlz).length = 3 ∨ (pySplit '-' vmlz).length = 4 then
    match pyPop (siblingMatches (systemMapFiles dir) (versionOf vmlz) (isOldOf vmlz)) with
    | none => Except.error (FindError.noSystemMap (versionOf vmlz) (isOldOf vmlz))
    | some smap =>
      match pyPop (siblingMatches (configFiles dir) (versionOf vmlz) (isOldOf vmlz)) with
      | none => Except.error (FindError.noConfig (versionOf vmlz) (isOldOf vmlz))
      | some cfg =>
        Except.ok (VersionInfo.mk (versionOf vmlz) vmlz smap cfg (isOldOf vmlz)
          (if (pySplit '-' vmlz).length = 4 then
            PyVal.str (pyLstripR ((pySplit '-' vmlz).getD 3 ""))
          else PyVal.int 0) mp sp)
  else Except.error (FindError.badVersionLen (pySplit '-' vmlz).length)

/-- Run a fallible builder over a list, in order, stopping at the first
error (the loop body of `__find_installed_kernels`, whose errors all call
`error_and_exit`). -/
def mapExcept {α β ε : Type} (f : α → Except ε β) : List α → Except ε (List β)
  | [] => Except.ok []
  | x :: xs =>
    match f x with
    | Except.error e => Except.error e
    | Except.ok y =>
      match mapExcept f xs with
      | Except.error e => Except.error e
      | Except.ok ys => Except.ok (y :: ys)

/-- Whether `sorted(self.__current_kernels, reverse=True)` raises: with at
least two records, CPython's sort compares every adjacent pair while
detecting runs, so each record's `__lt__` — and hence its `as_tuple` — is
evaluated at least once, and any record whose version fields or
release-candidate field fail `int()` (or whose version splits into fewer
than three fields) makes the sort raise; with zero or one record no
comparison happens and nothing raises. -/
def sortRaises (recs : List VersionInfo) : Bool :=
  decide (2 ≤ recs.length) && recs.any (fun r => r.as_tuple == none)

/-- `KernelUpdater.__find_installed_kernels`: glob the install directory
(modelled as its listing `dir`), build one record per image file, and sort
the result newest-first; a record the sort cannot convert makes the whole
call raise (`FindError.sortCrash`).  `mp`/`sp` are the configured module
and source roots passed through to each record. -/
def find_installed_kernels (dir : List String) (mp sp : String) :
    Except FindError (List VersionInfo) :=
  match mapExcept (buildRecord dir mp sp) (vmlinuzFiles dir) with
  | Except.error e => Except.error e
  | Except.ok recs =>
    if sortRaises recs then Except.error FindError.sortCrash
    else Except.ok (sortKernels recs)

/-- `KernelUpdater.__clean_up` from the directory listing: re-discover the
installed kernels (an `error_and_exit` there aborts the run with no
deletion attempted — second component `true`), then run the retention
deletions. -/
def clean_up (dir : List String) (mp sp versions_to_keep : String)
    (fails : String → Bool) : List String × Bool :=
  match find_installed_kernels dir mp sp with
  | Except.error _ => ([], true)
  | Except.ok ks => cleanUpDeletions ks versions_to_keep fails

/-- `VersionInfo.__str__`: `VersionInfo(` + version triple + the `-r`
release-candidate suffix when `int(release_candidate_num) > 0` (the raw
attribute is interpolated) + `.old` for the old generation + the three
file paths.  `none` models the `ValueError` the `int()` guard raises when
the release-candidate field is a non-numeric string. -/
def VersionInfo.pyStrOpt (v : VersionInfo) : Option String :=
  match v.release_candidate_num.toIntOpt with
  | none => none
  | some n =>
    some ("VersionInfo(" ++ v.version_triple ++
      (if 0 < n then "-r" ++ v.release_candidate_num.pyStr else "") ++
      (if v.is_old then ".old" else "") ++ ", " ++ v.vmlinuz ++ ", " ++
      v.system_map ++ ", " ++ v.config ++ ")")

/-- The printing loop of `print_installed_kernels`: records are reported in
order until the first whose `__str__` raises; the second component records
whether a `ValueError` escaped (uncaught, process exit code 1, records
after it unreported). -/
def listedRecords : List VersionInfo → List VersionInfo × Bool
  | [] => ([], false)
  | v :: vs =>
    match v.pyStrOpt with
    | none => ([], true)
    | some _ =>
      let r := listedRecords vs
      (v :: r.1, r.2)

/-- Dispatch of `__main__` between list mode and the retention path, after
the `KernelUpdater` constructor has scanned the directory: with `--list`
the program re-sorts and prints the discovered records
(`print_installed_kernels`) and exits 0, unless some record's `__str__`
raises mid-listing (uncaught, exit 1); otherwise (modelled for
`--clean-only`, the branch of `update()` that goes straight to the
retention pass; the build/install collaborator steps are out of scope) it
requires root and runs `__clean_up`.  Result: the records successfully
listed, the argv of every external command invoked, and the exit status
(`1` for `error_and_exit`, an uncaught exception, or a failed permission
check). -/
def programRun (listFlag isRoot : Bool) (dir : List String)
    (mp sp versions_to_keep : String) (fails : String → Bool) :
    List VersionInfo × List (List String) × Nat :=
  match find_installed_kernels dir mp sp with
  | Except.error _ => ([], [], 1)
  | Except.ok ks =>
    if listFlag then
      let r := listedRecords (sortKernels ks)
      (r.1, [], if r.2 then 1 else 0)
    else if !isRoot then ([], [], 1)
    else
      let r := cleanUpDeletions ks versions_to_keep fails
      ([], r.1.map (fun t => ["rm", "-r", t]), if r.2 then 1 else 0)

/-- The complete deletion plan of a record (image, symbol map, config,
source directory, and — unless `.old` — module directory); empty when the
record's release-candidate field does not survive `int()`, a case the
retention theorems exclude by hypothesis. -/
def VersionInfo.plannedTargets (v : VersionInfo) : List String :=
  match v.release_candidate_num.toIntOpt with
  | some n => v.removeTargets n
  | none => []

/-- Module root used by the concrete test inputs (the source default). -/
def mpW : String := "/lib/modules"

/-- Source root used by the concrete test inputs (the source default). -/
def spW : String := "/usr/src/linux"

/-- Installed kernel 5.8.0 (current generation). -/
def rec580 : VersionInfo :=
  VersionInfo.mk "5.8.0" "vmlinuz-5.8.0-gentoo" "System.map-5.8.0-gentoo"
    "config-5.8.0-gentoo" false (PyVal.int 0) mpW spW

/-- Installed kernel 5.7.10 (current generation). -/
def rec5710 : VersionInfo :=
  VersionInfo.mk "5.7.10" "vmlinuz-5.7.10-gentoo" "System.map-5.7.10-gentoo"
    "config-5.7.10-gentoo" false (PyVal.int 0) mpW spW

/-- Installed kernel 5.7.9 (current generation). -/
def rec579 : VersionInfo :=
  VersionInfo.mk "5.7.9" "vmlinuz-5.7.9-gentoo" "System.map-5.7.9-gentoo"
    "config-5.7.9-gentoo" false (PyVal.int 0) mpW spW

/-- Installed kernel 5.6.10 (current generation). -/
def rec5610 : VersionInfo :=
  VersionInfo.mk "5.6.10" "vmlinuz-5.6.10-gentoo" "System.map-5.6.10-gentoo"
    "config-5.6.10-gentoo" false (PyVal.int 0) mpW spW

/-- Install directory holding complete artifact sets for the two distinct
versions 5.7.1 and 5.7.10, where the token `"5.7.1"` is a substring of
`"5.7.10"`. -/
def dirC2 : List String :=
  ["vmlinuz-5.7.1-gentoo", "vmlinuz-5.7.10-gentoo",
   "System.map-5.7.1-gentoo", "System.map-5.7.10-gentoo",
   "config-5.7.1-gentoo", "config-5.7.10-gentoo"]

/-- Install directory with two config files both matching version 5.7.10
and the non-old generation. -/
def dirC3 : List String :=
  ["vmlinuz-5.7.10-gentoo", "System.map-5.7.10-gentoo",
   "config-5.7.10-gentoo", "config-5.7.10-gentoo.bak"]

/-- Install directory with an image file but neither symbol map nor
config. -/
def dirC4W : List String := ["vmlinuz-5.7.10-gentoo"]

/-- Install directory with one complete artifact set for 5.8.0. -/
def dirC10W : List String :=
  ["vmlinuz-5.8.0-gentoo", "System.map-5.8.0-gentoo", "config-5.8.0-gentoo"]

/-- Python `list.pop()` fails exactly on the empty list. -/
lemma pyPop_eq_none_iff {α : Type} (l : List α) : pyPop l = none ↔ l = [] := by
  induction l with
  | nil => simp [pyPop]
  | cons a as ih =>
    cases as with
    | nil => simp [pyPop]
    | cons b bs => simpa [pyPop] using ih

/-- Splitting a check-everything command sequence: the part after an abort
is never reached. -/
lemma runSeq_append (fails : String → Bool) (xs ys : List String) :
    runSeq fails (xs ++ ys) =
      if (runSeq fails xs).2 then runSeq fails xs
      else ((runSeq fails xs).1 ++ (runSeq fails ys).1, (runSeq fails ys).2) := by
  induction xs with
  | nil => simp [runSeq]
  | cons t ts ih =>
    cases h : fails t with
    | true => simp [runSeq, h]
    | false =>
      simp only [List.cons_append, runSeq, h, Bool.false_eq_true, if_false,
        List.append_eq]
      rw [ih]
      by_cases h2 : (runSeq fails ts).2 <;> simp [h2]

/-- `VersionInfo.remove` is the stop-at-first-failure execution of the
record's deletion plan whenever the release-candidate field converts. -/
lemma remove_eq_runSeq (v : VersionInfo) (fails : String → Bool) (n : Int)
    (h : v.release_candidate_num.toIntOpt = some n) :
    v.remove fails = runSeq fails (v.removeTargets n) := by
  unfold VersionInfo.remove VersionInfo.removeTargets
  rw [h]
  cases h1 : fails v.vmlinuz with
  | true => simp [runSeq, h1]
  | false =>
    cases h2 : fails v.system_map with
    | true => simp [runSeq, h1, h2]
    | false =>
      cases h3 : fails v.config with
      | true => simp [runSeq, h1, h2, h3]
      | false =>
        cases h4 : fails (v.sourceDirFull n) with
        | true => simp [runSeq, h1, h2, h3, h4]
        | false =>
          cases hold : v.is_old with
          | true => simp [runSeq, h1, h2, h3, h4, hold]
          | false =>
            cases h5 : fails v.modules_dir <;>
              simp [runSeq, h1, h2, h3, h4, h5, hold]

/-- Deleting a sequence of records is the stop-at-first-failure execution
of their concatenated deletion plans. -/
lemma deleteSeq_eq_runSeq (fails : String → Bool) (l : List VersionInfo)
    (h : ∀ v ∈ l, (v.release_candidate_num.toIntOpt).isSome) :
    deleteSeq fails l =
      runSeq fails ((l.map VersionInfo.plannedTargets).flatten) := by
  induction l with
  | nil => simp [deleteSeq, runSeq]
  | cons v vs ih =>
    obtain ⟨n, hn⟩ := Option.isSome_iff_exists.mp (h v (List.mem_cons_self v vs))
    have hplan : v.plannedTargets = v.removeTargets n := by
      simp [VersionInfo.plannedTargets, hn]
    have hrem := remove_eq_runSeq v fails n hn
    have ihh := ih (fun w hw => h w (List.mem_cons_of_mem v hw))
    simp only [deleteSeq, List.map_cons, List.flatten_cons, hplan, hrem, ihh]
    rw [runSeq_append]
    by_cases hab : (runSeq fails (v.removeTargets n)).2 <;>
      simp [hab, Prod.ext_iff]

/-- A discovery-loop iteration that fails on a well-formed image name fails
because a sibling filter came up empty, and reports that version. -/
lemma buildRecord_error_missing (dir : List String) (mp sp f : String)
    (hlen : (pySplit '-' f).length = 3 ∨ (pySplit '-' f).length = 4)
    (e : FindError) (h : buildRecord dir mp sp f = Except.error e) :
    (e = FindError.noSystemMap (versionOf f) (isOldOf f) ∧
      siblingMatches (systemMapFiles dir) (versionOf f) (isOldOf f) = []) ∨
    (e = FindError.noConfig (versionOf f) (isOldOf f) ∧
      siblingMatches (configFiles dir) (versionOf f) (isOldOf f) = []) := by
  unfold buildRecord at h
  rw [if_pos hlen] at h
  cases hm : pyPop (siblingMatches (systemMapFiles dir) (versionOf f) (isOldOf f)) with
  | none =>
    rw [hm] at h
    left
    exact ⟨(Except.error.injEq _ _ ▸ h).symm ▸ rfl, (pyPop_eq_none_iff _).mp hm⟩
  | some smap =>
    rw [hm] at h
    cases hc : pyPop (siblingMatches (configFiles dir) (versionOf f) (isOldOf f)) with
    | none =>
      rw [hc] at h
      right
      exact ⟨(Except.error.injEq _ _ ▸ h).symm ▸ rfl, (pyPop_eq_none_iff _).mp hc⟩
    | some cfg =>
      rw [hc] at h
      exact Except.noConfusion h

/-- A discovery-loop iteration that produces a record found both siblings. -/
lemma buildRecord_ok_nonempty (dir : List String) (mp sp f : String)
    (r : VersionInfo) (h : buildRecord dir mp sp f = Except.ok r) :
    siblingMatches (systemMapFiles dir) (versionOf f) (isOldOf f) ≠ [] ∧
    siblingMatches (configFiles dir) (versionOf f) (isOldOf f) ≠ [] := by
  unfold buildRecord at h
  by_cases hlen : (pySplit '-' f).length = 3 ∨ (pySplit '-' f).length = 4
  · rw [if_pos hlen] at h
    cases hm : pyPop (siblingMatches (systemMapFiles dir) (versionOf f) (isOldOf f)) with
    | none => rw [hm] at h; exact Except.noConfusion h
    | some smap =>
      rw [hm] at h
      cases hc : pyPop (siblingMatches (configFiles dir) (versionOf f) (isOldOf f)) with
      | none => rw [hc] at h; exact Except.noConfusion h
      | some cfg =>
        constructor
        · intro hnil
          rw [hnil] at hm
          exact Option.noConfusion ((rfl : pyPop ([] : List String) = none) ▸ hm)
        · intro hnil
          rw [hnil] at hc
          exact Option.noConfusion ((rfl : pyPop ([] : List String) = none) ▸ hc)
  · rw [if_neg hlen] at h
    exact Except.noConfusion h

/-- If every image name in the loop is well formed and some image has an
empty sibling filter, the discovery loop stops with a missing-sibling error
that names the version of an image whose sibling filter is indeed empty. -/
lemma mapExcept_missing (dir : List String) (mp sp : String) (l : List String)
    (h1 : ∀ f ∈ l, (pySplit '-' f).length = 3 ∨ (pySplit '-' f).length = 4)
    (h2 : ∃ f ∈ l,
      siblingMatches (systemMapFiles dir) (versionOf f) (isOldOf f) = [] ∨
      siblingMatches (configFiles dir) (versionOf f) (isOldOf f) = []) :
    ∃ f ∈ l,
      (mapExcept (buildRecord dir mp sp) l =
          Except.error (FindError.noSystemMap (versionOf f) (isOldOf f)) ∧
        siblingMatches (systemMapFiles dir) (versionOf f) (isOldOf f) = []) ∨
      (mapExcept (buildRecord dir mp sp) l =
          Except.error (FindError.noConfig (versionOf f) (isOldOf f)) ∧
        siblingMatches (configFiles dir) (versionOf f) (isOldOf f) = []) := by
  induction l with
  | nil => simp at h2
  | cons a as ih =>
    cases hb : buildRecord dir mp sp a with
    | error e =>
      have hch := buildRecord_error_missing dir mp sp a
        (h1 a (List.mem_cons_self a as)) e hb
      refine ⟨a, List.mem_cons_self a as, ?_⟩
      rcases hch with ⟨he, hemp⟩ | ⟨he, hemp⟩
      · left
        exact ⟨by simp [mapExcept, hb, he], hemp⟩
      · right
        exact ⟨by simp [mapExcept, hb, he], hemp⟩
    | ok y =>
      have hne := buildRecord_ok_nonempty dir mp sp a y hb
      obtain ⟨f, hf, hcase⟩ := h2
      rcases List.mem_cons.mp hf with rfl | hfs
      · rcases hcase with hc | hc
        · exact absurd hc hne.1
        · exact absurd hc hne.2
      · obtain ⟨g, hg, hcg⟩ :=
          ih (fun x hx => h1 x (List.mem_cons_of_mem a hx)) ⟨f, hfs, hcase⟩
        refine ⟨g, List.mem_cons_of_mem a hg, ?_⟩
        rcases hcg with ⟨heq, hemp⟩ | ⟨heq, hemp⟩
        · left
          exact ⟨by simp [mapExcept, hb, heq], hemp⟩
        · right
          exact ⟨by simp [mapExcept, hb, heq], hemp⟩

/-- Stable insertion preserves membership. -/
lemma mem_insertKernel {a x : VersionInfo} {l : List VersionInfo} :
    a ∈ insertKernel x l ↔ a = x ∨ a ∈ l := by
  induction l with
  | nil => simp [insertKernel]
  | cons y ys ih =>
    by_cases h : kernelBefore x y
    · simp [insertKernel, h]
    · simp [insertKernel, h, ih]
      tauto

/-- Sorting preserves membership. -/
lemma mem_sortKernels {a : VersionInfo} {l : List VersionInfo} :
    a ∈ sortKernels l ↔ a ∈ l := by
  induction l with
  | nil => simp [sortKernels]
  | cons x xs ih => simp [sortKernels, mem_insertKernel, ih]

/-- Printing succeeds on every record whose release-candidate field
survives `int()`. -/
lemma listedRecords_all_ok (l : List VersionInfo)
    (h : ∀ v ∈ l, (v.release_candidate_num.toIntOpt).isSome) :
    listedRecords l = (l, false) := by
  induction l with
  | nil => simp [listedRecords]
  | cons v vs ih =>
    obtain ⟨n, hn⟩ := Option.isSome_iff_exists.mp (h v (List.mem_cons_self v vs))
    simp [listedRecords, VersionInfo.pyStrOpt, hn,
      ih (fun w hw => h w (List.mem_cons_of_mem v hw))]

/-- C1 (retention exactness — evaluation at the failing input): with the
two sorted records [5.8.0, 5.7.9] and the configured keep count string
`"1"` (N = 2, K = 1, so the claim demands exactly N − K = 1 deletion, the
oldest record), `__clean_up` selects no record at all: the threshold
compares N with `len("1") = 1` (the character length of the configuration
string) and the deletion count is the hardcoded `len(kernels) - 2 = 0`. -/
theorem c1_retention_count_eval :
    cleanUpSelected [rec580, rec579] "1" = [] := rfl

/-- C2 (anchored sibling matching — evaluation at the failing input): on a
directory holding complete artifact sets for both 5.7.1 and 5.7.10, the
builder's substring filter (`"5.7.1" in name`) matches both versions'
siblings and `pop()` silently takes the last, so the record built for
version 5.7.1 captures the symbol map and config of its sibling version
5.7.10 — the matching is not anchored on the full version token. -/
theorem c2_substring_capture_eval :
    find_installed_kernels dirC2 mpW spW = Except.ok
      [VersionInfo.mk "5.7.10" "vmlinuz-5.7.10-gentoo" "System.map-5.7.10-gentoo"
        "config-5.7.10-gentoo" false (PyVal.int 0) mpW spW,
       VersionInfo.mk "5.7.1" "vmlinuz-5.7.1-gentoo" "System.map-5.7.10-gentoo"
        "config-5.7.10-gentoo" false (PyVal.int 0) mpW spW] := rfl

/-- C3 (ambiguity is a hard error — evaluation at the failing input): with
two config files both matching version 5.7.10 and the non-old generation,
discovery does not fail at all: `pop()` silently picks the last filtered
candidate (`config-5.7.10-gentoo.bak`) and record construction succeeds. -/
theorem c3_ambiguous_pick_eval :
    find_installed_kernels dirC3 mpW spW = Except.ok
      [VersionInfo.mk "5.7.10" "vmlinuz-5.7.10-gentoo" "System.map-5.7.10-gentoo"
        "config-5.7.10-gentoo.bak" false (PyVal.int 0) mpW spW] := rfl

/-- C4 (missing sibling is a hard error before any mutation): if every
image filename splits into 3 or 4 fields and some image file has no
matching symbol map or no matching config of its version and generation,
then discovery fails with a missing-artifact error naming the version (and
generation) of an image whose sibling filter is indeed empty, and the
retention pass attempts no deletion whatsoever. -/
theorem c4_missing_sibling_aborts (dir : List String) (mp sp vtk : String)
    (fails : String → Bool)
    (h1 : ∀ f ∈ vmlinuzFiles dir,
      (pySplit '-' f).length = 3 ∨ (pySplit '-' f).length = 4)
    (h2 : ∃ f ∈ vmlinuzFiles dir,
      siblingMatches (systemMapFiles dir) (versionOf f) (isOldOf f) = [] ∨
      siblingMatches (configFiles dir) (versionOf f) (isOldOf f) = []) :
    (∃ f ∈ vmlinuzFiles dir,
      (find_installed_kernels dir mp sp =
          Except.error (FindError.noSystemMap (versionOf f) (isOldOf f)) ∧
        siblingMatches (systemMapFiles dir) (versionOf f) (isOldOf f) = []) ∨
      (find_installed_kernels dir mp sp =
          Except.error (FindError.noConfig (versionOf f) (isOldOf f)) ∧
        siblingMatches (configFiles dir) (versionOf f) (isOldOf f) = [])) ∧
    (clean_up dir mp sp vtk fails).1 = [] := by
  obtain ⟨f, hf, hc⟩ := mapExcept_missing dir mp sp (vmlinuzFiles dir) h1 h2
  have hfind : ∃ e, find_installed_kernels dir mp sp = Except.error e := by
    rcases hc with ⟨heq, _⟩ | ⟨heq, _⟩
    · exact ⟨FindError.noSystemMap (versionOf f) (isOldOf f),
        by simp [find_installed_kernels, heq]⟩
    · exact ⟨FindError.noConfig (versionOf f) (isOldOf f),
        by simp [find_installed_kernels, heq]⟩
  constructor
  · refine ⟨f, hf, ?_⟩
    rcases hc with ⟨heq, hemp⟩ | ⟨heq, hemp⟩
    · left
      exact ⟨by simp [find_installed_kernels, heq], hemp⟩
    · right
      exact ⟨by simp [find_installed_kernels, heq], hemp⟩
  · obtain ⟨e, he⟩ := hfind
    simp [clean_up, he]

/-- C4 witness: a directory holding only an image file for 5.7.10 (no
symbol map, no config) makes discovery fail and the retention pass delete
nothing. -/
theorem c4_missing_sibling_aborts_witness :
    (∃ f ∈ vmlinuzFiles dirC4W,
      (find_installed_kernels dirC4W mpW spW =
          Except.error (FindError.noSystemMap (versionOf f) (isOldOf f)) ∧
        siblingMatches (systemMapFiles dirC4W) (versionOf f) (isOldOf f) = []) ∨
      (find_installed_kernels dirC4W mpW spW =
          Except.error (FindError.noConfig (versionOf f) (isOldOf f)) ∧
        siblingMatches (configFiles dirC4W) (versionOf f) (isOldOf f) = [])) ∧
    (clean_up dirC4W mpW spW "2" (fun _ => false)).1 = [] :=
  c4_missing_sibling_aborts dirC4W mpW spW "2" (fun _ => false)
    (by decide) (by decide)

/-- C5 counterexample (best-effort deletion is false on the code): four
sorted records with keep string `"2"` select the two oldest (5.6.10 then
5.7.9) for deletion; when the very first artifact deletion (the 5.6.10
image) fails, the pass attempts nothing else — not the remaining artifacts
of the 5.6.10 record, and none of the 5.7.9 record's, although 5.7.9 was
selected — and aborts with an escaped error, refuting the claim that a
per-artifact failure does not abort the remaining deletions. -/
theorem c5_failure_aborts_counterexample :
    (cleanUpDeletions [rec580, rec5710, rec579, rec5610] "2"
        (fun t => t == "vmlinuz-5.6.10-gentoo")).1 = ["vmlinuz-5.6.10-gentoo"] ∧
    (cleanUpDeletions [rec580, rec5710, rec579, rec5610] "2"
        (fun t => t == "vmlinuz-5.6.10-gentoo")).2 = true ∧
    rec579 ∈ cleanUpSelected [rec580, rec5710, rec579, rec5610] "2" ∧
    "System.map-5.6.10-gentoo" ∉
      (cleanUpDeletions [rec580, rec5710, rec579, rec5610] "2"
        (fun t => t == "vmlinuz-5.6.10-gentoo")).1 := by decide

/-- C5 as amended (first failure aborts the pass): every deletion runs with
`check=True` and no handler, so the retention pass is the
stop-at-first-failure execution (`runSeq`) of the concatenated deletion
plans of the selected records (oldest first): targets are attempted
strictly in order, the first failing target is the last one attempted, and
no later artifact of that record or of any subsequent record is attempted;
the hypothesis requires each selected record's release-candidate field to
survive `int()`. -/
theorem c5_first_failure_aborts_pass (kernels : List VersionInfo)
    (vtk : String) (fails : String → Bool)
    (h : ∀ v ∈ cleanUpSelected kernels vtk,
      (v.release_candidate_num.toIntOpt).isSome) :
    cleanUpDeletions kernels vtk fails =
      runSeq fails
        (((cleanUpSelected kernels vtk).map VersionInfo.plannedTargets).flatten) :=
  deleteSeq_eq_runSeq fails (cleanUpSelected kernels vtk) h

/-- C5 witness: the amended theorem applied to the four concrete records,
keep string `"2"` and a failure on the 5.6.10 image. -/
theorem c5_first_failure_aborts_pass_witness :
    cleanUpDeletions [rec580, rec5710, rec579, rec5610] "2"
        (fun t => t == "vmlinuz-5.6.10-gentoo") =
      runSeq (fun t => t == "vmlinuz-5.6.10-gentoo")
        (((cleanUpSelected [rec580, rec5710, rec579, rec5610] "2").map
          VersionInfo.plannedTargets).flatten) :=
  c5_first_failure_aborts_pass [rec580, rec5710, rec579, rec5610] "2"
    (fun t => t == "vmlinuz-5.6.10-gentoo") (by decide)

/-- C6 (old-demotion): for any version string and release-candidate value
whose tuple conversion succeeds, the non-old record compares strictly
greater (newer) than the `.old` record with the same version string and
release-candidate value, whatever the file paths of either record. -/
theorem c6_old_demotion (s vm1 sm1 cf1 mp1 sp1 vm2 sm2 cf2 mp2 sp2 : String)
    (rc : PyVal) (t : Int × Int × Int × Int × Int)
    (h : (VersionInfo.mk s vm1 sm1 cf1 false rc mp1 sp1).as_tuple = some t) :
    VersionInfo.gt (VersionInfo.mk s vm1 sm1 cf1 false rc mp1 sp1)
      (VersionInfo.mk s vm2 sm2 cf2 true rc mp2 sp2) = some true := by
  unfold VersionInfo.gt
  unfold VersionInfo.as_tuple at h ⊢
  rcases hsp : pySplit '.' s with _ | ⟨A, _ | ⟨B, _ | ⟨C, rest⟩⟩⟩ <;>
    simp only [hsp] at h ⊢ <;> try exact Option.noConfusion h
  rcases hA : pyParseInt A with _ | a <;> rcases hB : pyParseInt B with _ | b <;>
    rcases hC : pyParseInt C with _ | c <;> rcases hrc : rc.toIntOpt with _ | n <;>
    simp only [hA, hB, hC, hrc] at h ⊢ <;> try exact Option.noConfusion h
  simp [tup5Lt]

/-- C6 witness: the current 5.7.10 record is newer than the `.old` 5.7.10
record. -/
theorem c6_old_demotion_witness :
    VersionInfo.gt
      (VersionInfo.mk "5.7.10" "vmlinuz-5.7.10-gentoo" "System.map-5.7.10-gentoo"
        "config-5.7.10-gentoo" false (PyVal.int 0) mpW spW)
      (VersionInfo.mk "5.7.10" "vmlinuz-5.7.10-gentoo.old"
        "System.map-5.7.10-gentoo.old" "config-5.7.10-gentoo.old" true
        (PyVal.int 0) mpW spW) = some true :=
  c6_old_demotion "5.7.10" "vmlinuz-5.7.10-gentoo" "System.map-5.7.10-gentoo"
    "config-5.7.10-gentoo" mpW spW "vmlinuz-5.7.10-gentoo.old"
    "System.map-5.7.10-gentoo.old" "config-5.7.10-gentoo.old" mpW spW
    (PyVal.int 0) (5, 7, 10, 0, 0) rfl

/-- C7 counterexample (the spec's literal chain fails on the code): the
middle inequality of the chain 5.7.10 > 5.6.10 > 5.7.9 is false — under
the tuple ordering the minor field dominates the patch field, so 5.6.10
compares strictly less than 5.7.9 (equal release candidate, equal old
flag). -/
theorem c7_chain_counterexample :
    VersionInfo.gt rec5610 rec579 = some false := rfl

/-- C7 as amended (dominance, per the source tests): for equal
release-candidate values and equal old flags, 5.7.10 is newer than 5.6.10
(minor dominance, `test_version_compare_minor`), 5.7.10 is newer than
5.7.9 (patch dominance, `test_version_compare_patch`), and — the corrected
middle comparison — 5.7.9 is newer than 5.6.10. -/
theorem c7_dominance_amended (old : Bool) (rc : PyVal) (n : Int)
    (vm1 sm1 cf1 vm2 sm2 cf2 vm3 sm3 cf3 mp sp : String)
    (h : rc.toIntOpt = some n) :
    VersionInfo.gt (VersionInfo.mk "5.7.10" vm1 sm1 cf1 old rc mp sp)
        (VersionInfo.mk "5.6.10" vm2 sm2 cf2 old rc mp sp) = some true ∧
    VersionInfo.gt (VersionInfo.mk "5.7.10" vm1 sm1 cf1 old rc mp sp)
        (VersionInfo.mk "5.7.9" vm3 sm3 cf3 old rc mp sp) = some true ∧
    VersionInfo.gt (VersionInfo.mk "5.7.9" vm3 sm3 cf3 old rc mp sp)
        (VersionInfo.mk "5.6.10" vm2 sm2 cf2 old rc mp sp) = some true := by
  have h1 : pySplit '.' "5.7.10" = ["5", "7", "10"] := rfl
  have h2 : pySplit '.' "5.6.10" = ["5", "6", "10"] := rfl
  have h3 : pySplit '.' "5.7.9" = ["5", "7", "9"] := rfl
  have p5 : pyParseInt "5" = some 5 := rfl
  have p6 : pyParseInt "6" = some 6 := rfl
  have p7 : pyParseInt "7" = some 7 := rfl
  have p9 : pyParseInt "9" = some 9 := rfl
  have p10 : pyParseInt "10" = some 10 := rfl
  refine ⟨?_, ?_, ?_⟩ <;>
    simp only [VersionInfo.gt, VersionInfo.as_tuple, h1, h2, h3, p5, p6, p7,
      p9, p10, h] <;>
    cases old <;> simp [tup5Lt]

/-- C7 witness: the amended dominance facts at the concrete non-old,
non-release-candidate records of the source tests. -/
theorem c7_dominance_amended_witness :
    VersionInfo.gt (VersionInfo.mk "5.7.10" "vmlinuz-5.7.10-gentoo"
        "System.map-5.7.10-gentoo" "config-5.7.10-gentoo" false (PyVal.int 0) mpW spW)
      (VersionInfo.mk "5.6.10" "vmlinuz-5.6.10-gentoo" "System.map-5.6.10-gentoo"
        "config-5.6.10-gentoo" false (PyVal.int 0) mpW spW) = some true ∧
    VersionInfo.gt (VersionInfo.mk "5.7.10" "vmlinuz-5.7.10-gentoo"
        "System.map-5.7.10-gentoo" "config-5.7.10-gentoo" false (PyVal.int 0) mpW spW)
      (VersionInfo.mk "5.7.9" "vmlinuz-5.7.9-gentoo" "System.map-5.7.9-gentoo"
        "config-5.7.9-gentoo" false (PyVal.int 0) mpW spW) = some true ∧
    VersionInfo.gt (VersionInfo.mk "5.7.9" "vmlinuz-5.7.9-gentoo"
        "System.map-5.7.9-gentoo" "config-5.7.9-gentoo" false (PyVal.int 0) mpW spW)
      (VersionInfo.mk "5.6.10" "vmlinuz-5.6.10-gentoo" "System.map-5.6.10-gentoo"
        "config-5.6.10-gentoo" false (PyVal.int 0) mpW spW) = some true :=
  c7_dominance_amended false (PyVal.int 0) 0 "vmlinuz-5.7.10-gentoo"
    "System.map-5.7.10-gentoo" "config-5.7.10-gentoo" "vmlinuz-5.6.10-gentoo"
    "System.map-5.6.10-gentoo" "config-5.6.10-gentoo" "vmlinuz-5.7.9-gentoo"
    "System.map-5.7.9-gentoo" "config-5.7.9-gentoo" mpW spW rfl

/-- C8 (no-op below threshold — evaluation at the failing input): with
three sorted records and the configured keep count string `"3"` (N = 3 ≤
K = 3, so the claim demands zero deletions), `__clean_up` still deletes
one record — the threshold compares N with `len("3") = 1` and the deletion
count is `len(kernels) - 2 = 1` — removing the oldest record 5.7.9. -/
theorem c8_threshold_eval :
    cleanUpSelected [rec580, rec5710, rec579] "3" = [rec579] := rfl

/-- C9 (deletion order and module-directory exemption): for any record
whose release-candidate field survives `int()`, a fully-successful removal
attempts exactly, and in this order: the image file, the symbol-map file,
the config file, the version's source directory, and — only when the
record is not the `.old` generation — the version's module directory; an
`.old` record's removal stops after the source directory and never touches
a module directory. -/
theorem c9_remove_order (v : VersionInfo) (n : Int)
    (h : v.release_candidate_num.toIntOpt = some n) :
    v.remove (fun _ => false) = (v.removeTargets n, false) := by
  cases hold : v.is_old <;>
    simp [VersionInfo.remove, VersionInfo.removeTargets, runSeq, h, hold]

/-- C9 witness: the removal trace of the concrete 5.8.0 record. -/
theorem c9_remove_order_witness :
    rec580.remove (fun _ => false) = (rec580.removeTargets 0, false) :=
  c9_remove_order rec580 0 rfl

/-- C10 (list-only mode is read-only): whenever discovery succeeds and
every discovered record's release-candidate field survives `int()` (so no
`__str__` call can raise mid-listing — for two or more records the
discovery hypothesis already forces every field to convert, since the
constructor's `sorted` would otherwise have raised), a run with the list
flag set sorts and reports all discovered records, invokes no external
command (in particular attempts no `rm -r` deletion of any artifact file,
source directory or module directory), and exits with status 0 — for every
configured keep count, every root state, and every behaviour of the
deletion commands. -/
theorem c10_list_mode_readonly (dir : List String) (mp sp vtk : String)
    (fails : String → Bool) (isRoot : Bool) (ks : List VersionInfo)
    (h : find_installed_kernels dir mp sp = Except.ok ks)
    (h2 : ∀ v ∈ ks, (v.release_candidate_num.toIntOpt).isSome) :
    programRun true isRoot dir mp sp vtk fails = (sortKernels ks, [], 0) := by
  have hall : ∀ v ∈ sortKernels ks, (v.release_candidate_num.toIntOpt).isSome :=
    fun v hv => h2 v (mem_sortKernels.mp hv)
  simp [programRun, h, listedRecords_all_ok (sortKernels ks) hall]

/-- C10 witness: list mode on a directory holding one complete 5.8.0
artifact set. -/
theorem c10_list_mode_readonly_witness :
    programRun true false dirC10W mpW spW "2" (fun _ => false) =
      (sortKernels [rec580], [], 0) :=
  c10_list_mode_readonly dirC10W mpW spW "2" (fun _ => false) false
    [rec580] rfl (by decide)
